import Mathlib

/-!
Shallow embedding of `src/index.py` (Flask to-do API with a translation
endpoint).  Request bodies are modelled as flat JSON objects, the pydantic
request models (`TodoItemCreate`, `TodoItemUpdate`, `TranslationRequest`) as
validators from JSON objects into typed records, the SQL store as a list of
rows together with the schema constraints generated by the SQLModel field
declarations (`id` primary key, `title` and `completed` NOT NULL,
`priority` VARCHAR(50)), and each Flask handler as a pure function from the
store state and the request to an HTTP response and the new store state.
A `StoreMode` parameter injects a store failure at commit time, standing for
the database raising during a write.
-/

/-- A calendar date (no time-of-day component), as carried by the
`due_date` column. -/
structure CalDate where
  year : Nat
  month : Nat
  day : Nat
deriving DecidableEq, Repr

/-- A flat JSON value, as found in the request bodies the endpoints accept.
Nested arrays and objects never validate against any field of the request
models, so they are outside the embedding. -/
inductive JsonVal where
  | null
  | bool (b : Bool)
  | str (s : String)
  | num (n : Int)
deriving DecidableEq, Repr

/-- A JSON object: the request body as a Python dict of field name to value. -/
abbrev JsonObj := List (String × JsonVal)

/-- Dict lookup on a JSON object body. -/
def getField (body : JsonObj) (k : String) : Option JsonVal :=
  (body.find? (fun p => decide (p.1 = k))).map Prod.snd

/-- Gregorian leap-year test, for date validation. -/
def isLeap (y : Nat) : Bool :=
  (y % 4 = 0 && y % 100 ≠ 0) || y % 400 = 0

/-- Days in a month of a given year. -/
def daysInMonth (y m : Nat) : Nat :=
  if m = 2 then (if isLeap y then 29 else 28)
  else if m = 4 ∨ m = 6 ∨ m = 9 ∨ m = 11 then 30
  else 31

/-- Parse an ISO-8601 `YYYY-MM-DD` string into a calendar date, as the
pydantic `date` field type does on JSON string input. -/
def parseDate (s : String) : Option CalDate :=
  match s.splitOn "-" with
  | [ys, ms, ds] =>
    if ys.length = 4 ∧ ms.length = 2 ∧ ds.length = 2 ∧
        ys.all Char.isDigit ∧ ms.all Char.isDigit ∧ ds.all Char.isDigit then
      match ys.toNat?, ms.toNat?, ds.toNat? with
      | some y, some m, some d =>
        if 1 ≤ m ∧ m ≤ 12 ∧ 1 ≤ d ∧ d ≤ daysInMonth y m then
          some ⟨y, m, d⟩
        else none
      | _, _, _ => none
    else none
  | _ => none

/-- ASCII lower-casing of one character, for pydantic's case-insensitive
boolean strings. -/
def lowerChar (c : Char) : Char :=
  if 65 ≤ c.toNat ∧ c.toNat ≤ 90 then Char.ofNat (c.toNat + 32) else c

/-- ASCII lower-casing of a string. -/
def lowerStr (s : String) : String :=
  String.mk (s.data.map lowerChar)

/-- Pydantic's lax boolean coercion: a JSON bool, the ints 0/1, or one of the
recognised true/false strings. -/
def boolLax (v : JsonVal) : Option Bool :=
  match v with
  | .bool b => some b
  | .num 0 => some false
  | .num 1 => some true
  | .num _ => none
  | .str s =>
    let t := lowerStr s
    if t = "true" ∨ t = "t" ∨ t = "y" ∨ t = "yes" ∨ t = "on" ∨ t = "1" then some true
    else if t = "false" ∨ t = "f" ∨ t = "n" ∨ t = "no" ∨ t = "off" ∨ t = "0" then some false
    else none
  | .null => none

/-- The in-memory `TodoItem` object as the Python runtime holds it: every
attribute may be `None`, whether or not the column is nullable (the update
handler sets attributes by name without re-validation). -/
structure PyTodo where
  id : Option Nat
  title : Option String
  description : Option String
  completed : Option Bool
  priority : Option String
  due_date : Option CalDate
deriving DecidableEq, Repr

/-- The `TodoItemCreate` pydantic model: `title` required, the rest optional. -/
structure TodoItemCreate where
  title : String
  description : Option String
  priority : Option String
  due_date : Option CalDate
deriving DecidableEq, Repr

/-- The `TodoItemUpdate` pydantic model with set-ness tracking: the outer
`Option` records whether the field was present in the body at all (pydantic's
`exclude_unset`), the inner one its (possibly null) value. -/
structure TodoItemUpdate where
  title : Option (Option String)
  description : Option (Option String)
  completed : Option (Option Bool)
  priority : Option (Option String)
  due_date : Option (Option CalDate)
deriving DecidableEq, Repr

/-- Validate an `Optional[str]` field: absent, null, or a JSON string. -/
def validateOptStrField (v : Option JsonVal) : Except String (Option (Option String)) :=
  match v with
  | none => .ok none
  | some .null => .ok (some none)
  | some (.str s) => .ok (some (some s))
  | some _ => .error "Input should be a valid string"

/-- Validate an `Optional[bool]` field: absent, null, or a lax boolean. -/
def validateOptBoolField (v : Option JsonVal) : Except String (Option (Option Bool)) :=
  match v with
  | none => .ok none
  | some .null => .ok (some none)
  | some w =>
    match boolLax w with
    | some b => .ok (some (some b))
    | none => .error "Input should be a valid boolean"

/-- Hinnant's civil-from-days conversion: the Gregorian date for a day
count relative to 1970-01-01 (meaningful for years 0000..9999). -/
def civilFromDays (z0 : Int) : CalDate :=
  let z := z0 + 719468
  let era := Int.ediv z 146097
  let doe := z - era * 146097
  let yoe := Int.ediv (doe - Int.ediv doe 1460 + Int.ediv doe 36524 - Int.ediv doe 146096) 365
  let y := yoe + era * 400
  let doy := doe - (365 * yoe + Int.ediv yoe 4 - Int.ediv yoe 100)
  let mp := Int.ediv (5 * doy + 2) 153
  let d := doy - Int.ediv (153 * mp + 2) 5 + 1
  let m := if mp < 10 then mp + 3 else mp - 9
  ⟨(if m ≤ 2 then y + 1 else y).toNat, m.toNat, d.toNat⟩

/-- Pydantic's lax `date` from a JSON integer: the number is a Unix
timestamp — in milliseconds when its magnitude exceeds the 20_000_000_000
watershed, otherwise in seconds — that must name exact midnight UTC (else
the `date_from_datetime_inexact` error) and fall within the supported years
0000..9999. -/
def dateFromTimestamp (n : Int) : Option CalDate :=
  let divisor : Int := if 20000000000 < n ∨ n < -20000000000 then 86400000 else 86400
  if Int.emod n divisor = 0 then
    let days := Int.ediv n divisor
    if -719528 ≤ days ∧ days ≤ 2932896 then some (civilFromDays days) else none
  else none

/-- Validate an `Optional[date]` field: absent, null, an ISO date string, or
an exact-midnight integer timestamp. -/
def validateOptDateField (v : Option JsonVal) : Except String (Option (Option CalDate)) :=
  match v with
  | none => .ok none
  | some .null => .ok (some none)
  | some (.str s) =>
    match parseDate s with
    | some d => .ok (some (some d))
    | none => .error "Input should be a valid date"
  | some (.num n) =>
    match dateFromTimestamp n with
    | some d => .ok (some (some d))
    | none => .error "Input should be a valid date"
  | some _ => .error "Input should be a valid date"

/-- `TodoItemCreate(**todo_data)`: `title` must be present and a string; the
optional fields collapse absent and null to `None`, as the create path never
distinguishes them. -/
def TodoItemCreate.validate (body : JsonObj) : Except String TodoItemCreate :=
  match getField body "title" with
  | none => .error "Field required: title"
  | some (.str t) =>
    match validateOptStrField (getField body "description") with
    | .error e => .error e
    | .ok dsc =>
      match validateOptStrField (getField body "priority") with
      | .error e => .error e
      | .ok pri =>
        match validateOptDateField (getField body "due_date") with
        | .error e => .error e
        | .ok dd => .ok ⟨t, dsc.join, pri.join, dd.join⟩
  | some _ => .error "Input should be a valid string"

/-- `TodoItemUpdate(**todo_data)` with set-ness preserved for
`model_dump(exclude_unset=True)`. -/
def TodoItemUpdate.validate (body : JsonObj) : Except String TodoItemUpdate :=
  match validateOptStrField (getField body "title") with
  | .error e => .error e
  | .ok t =>
    match validateOptStrField (getField body "description") with
    | .error e => .error e
    | .ok dsc =>
      match validateOptBoolField (getField body "completed") with
      | .error e => .error e
      | .ok c =>
        match validateOptStrField (getField body "priority") with
        | .error e => .error e
        | .ok pri =>
          match validateOptDateField (getField body "due_date") with
          | .error e => .error e
          | .ok dd => .ok ⟨t, dsc, c, pri, dd⟩

/-- The `for key, value in update_data.items(): setattr(todo, key, value)`
loop: overwrite exactly the fields present in the body. -/
def applyUpdate (todo : PyTodo) (u : TodoItemUpdate) : PyTodo :=
  { id := todo.id
    title := u.title.getD todo.title
    description := u.description.getD todo.description
    completed := u.completed.getD todo.completed
    priority := u.priority.getD todo.priority
    due_date := u.due_date.getD todo.due_date }

/-- Left-pad a numeral with zeros to the given width, for ISO date output. -/
def padNum (width n : Nat) : String :=
  let s := toString n
  if s.length < width then String.mk (List.replicate (width - s.length) '0') ++ s else s

/-- ISO rendering of a date, as `model_dump(mode='json')` produces. -/
def dateToIso (d : CalDate) : String :=
  padNum 4 d.year ++ "-" ++ padNum 2 d.month ++ "-" ++ padNum 2 d.day

/-- JSON rendering of a nullable string attribute. -/
def optStrJson (v : Option String) : JsonVal :=
  match v with
  | none => .null
  | some s => .str s

/-- `todo.model_dump(mode='json')`: the row as a JSON object. -/
def PyTodo.dump (t : PyTodo) : JsonObj :=
  [("id", match t.id with | none => JsonVal.null | some n => JsonVal.num n),
   ("title", optStrJson t.title),
   ("description", optStrJson t.description),
   ("completed", match t.completed with | none => JsonVal.null | some b => JsonVal.bool b),
   ("priority", optStrJson t.priority),
   ("due_date", match t.due_date with | none => JsonVal.null | some d => JsonVal.str (dateToIso d))]

/-- An HTTP response body: a JSON object, a JSON array of objects, or raw
text (the empty string for 204). -/
inductive RespBody where
  | obj (o : JsonObj)
  | arr (xs : List JsonObj)
  | text (s : String)
deriving DecidableEq, Repr

/-- An HTTP response: status code and body. -/
structure Response where
  status : Nat
  body : RespBody
deriving DecidableEq, Repr

/-- `jsonify({"detail": msg}), status`. -/
def detailResp (status : Nat) (msg : String) : Response :=
  ⟨status, .obj [("detail", .str msg)]⟩

/-- The relational store: the `todoitem` table plus the sequence backing the
`id` primary key. -/
structure DB where
  rows : List PyTodo
  nextId : Nat
deriving DecidableEq, Repr

/-- `session.get(TodoItem, todo_id)`: primary-key lookup. -/
def dbGet (db : DB) (i : Nat) : Option PyTodo :=
  db.rows.find? (fun r => decide (r.id = some i))

/-- The VARCHAR(50) column constraint on `priority` (from
`Field(max_length=50)`). -/
def priorityOk (t : PyTodo) : Bool :=
  match t.priority with
  | none => true
  | some p => decide (p.length ≤ 50)

/-- The schema constraints checked by the store at commit: `title` and
`completed` are NOT NULL, `priority` fits VARCHAR(50). -/
def rowConstraintsOk (t : PyTodo) : Bool :=
  t.title.isSome && t.completed.isSome && priorityOk t

/-- Whether the store raises during the write (`session.commit()`). -/
inductive StoreMode where
  | ok
  | failWrite
deriving DecidableEq, Repr

/-- `create_todo_flask`: validate the body, build the row, insert and commit.
Every exception — validation, store failure, constraint violation — is caught
by the handler's single `except` and returned as 400. -/
def create_todo_flask (store : StoreMode) (db : DB) (body : JsonObj) : Response × DB :=
  match TodoItemCreate.validate body with
  | .error e => (detailResp 400 ("Failed to create todo: " ++ e), db)
  | .ok tc =>
    let db_todo : PyTodo :=
      { id := none, title := some tc.title, description := tc.description,
        completed := some false, priority := tc.priority, due_date := tc.due_date }
    match store with
    | .failWrite => (detailResp 400 ("Failed to create todo: " ++ "store write failure"), db)
    | .ok =>
      if rowConstraintsOk db_todo then
        let newRow := { db_todo with id := some db.nextId }
        (⟨201, .obj newRow.dump⟩, ⟨db.rows ++ [newRow], db.nextId + 1⟩)
      else (detailResp 400 ("Failed to create todo: " ++ "schema constraint violation"), db)

/-- `update_todo_flask`: look the row up first; 404 if absent.  Only then
validate the body and apply the present fields; any exception after the
lookup — including a validation error — is caught and returned as 500. -/
def update_todo_flask (store : StoreMode) (db : DB) (todo_id : Nat) (body : JsonObj) :
    Response × DB :=
  match dbGet db todo_id with
  | none => (detailResp 404 "To-Do item not found", db)
  | some todo =>
    match TodoItemUpdate.validate body with
    | .error e => (detailResp 500 ("Failed to update todo: " ++ e), db)
    | .ok u =>
      let updated := applyUpdate todo u
      match store with
      | .failWrite => (detailResp 500 ("Failed to update todo: " ++ "store write failure"), db)
      | .ok =>
        if rowConstraintsOk updated then
          (⟨200, .obj updated.dump⟩,
           ⟨db.rows.map (fun r => if r.id = some todo_id then updated else r), db.nextId⟩)
        else (detailResp 500 ("Failed to update todo: " ++ "schema constraint violation"), db)

/-- `delete_todo_flask`: 404 if the row is absent, else delete and commit;
a store failure during the write is caught and returned as 500. -/
def delete_todo_flask (store : StoreMode) (db : DB) (todo_id : Nat) : Response × DB :=
  match dbGet db todo_id with
  | none => (detailResp 404 "To-Do item not found", db)
  | some _ =>
    match store with
    | .failWrite => (detailResp 500 ("Failed to delete todo: " ++ "store write failure"), db)
    | .ok =>
      (⟨204, .text ""⟩, ⟨db.rows.filter (fun r => !decide (r.id = some todo_id)), db.nextId⟩)

/-- `get_all_todos_flask`: the whole table, dumped. -/
def get_all_todos_flask (db : DB) : Response :=
  ⟨200, .arr (db.rows.map PyTodo.dump)⟩

/-- The `gemini_model` global, configured once at process startup: absent or
empty `GOOGLE_API_KEY` leaves it `None` and the handler never re-reads the
environment. -/
def gemini_model (google_api_key : Option String) : Option Unit :=
  match google_api_key with
  | none => none
  | some k => if k = "" then none else some ()

/-- The `TranslationRequest` pydantic model: both fields required strings. -/
structure TranslationRequest where
  text : String
  target_language : String
deriving DecidableEq, Repr

/-- `TranslationRequest(**request_data)`. -/
def TranslationRequest.validate (body : JsonObj) : Except String TranslationRequest :=
  match getField body "text" with
  | some (.str t) =>
    match getField body "target_language" with
    | some (.str l) => .ok ⟨t, l⟩
    | none => .error "Field required: target_language"
    | some _ => .error "Input should be a valid string"
  | none => .error "Field required: text"
  | some _ => .error "Input should be a valid string"

/-- The outcome of a translate request: the response, and whether the
external backend (`gemini_model.generate_content`) was invoked. -/
structure TranslateOutcome where
  resp : Response
  backendCalled : Bool
deriving DecidableEq, Repr

/-- `translate_text_flask`: 503 when the model is unconfigured, before the
body is even read; otherwise validate, format the prompt and call the
backend, converting any failure to 500. -/
def translate_text_flask (model : Option Unit) (backend : String → Except String String)
    (body : JsonObj) : TranslateOutcome :=
  match model with
  | none =>
    ⟨detailResp 503 "Translation service not available. API key might be missing or invalid.",
     false⟩
  | some _ =>
    match TranslationRequest.validate body with
    | .error e => ⟨detailResp 500 ("Failed to translate text: " ++ e), false⟩
    | .ok tr =>
      let prompt := "Translate the following text into " ++ tr.target_language ++ ": " ++ tr.text
      match backend prompt with
      | .error e => ⟨detailResp 500 ("Failed to translate text: " ++ e), true⟩
      | .ok out => ⟨⟨200, .obj [("translated_text", .str out)]⟩, true⟩

/-! ## Helper lemmas -/

theorem rowConstraintsOk_set_completed (t : PyTodo) (b : Bool)
    (h : rowConstraintsOk t = true) :
    rowConstraintsOk { t with completed := some b } = true := by
  simp only [rowConstraintsOk, Bool.and_eq_true] at h ⊢
  exact ⟨⟨h.1.1, rfl⟩, h.2⟩

theorem find?_map_update (rows : List PyTodo) (i : Nat) (t u : PyTodo)
    (hfind : rows.find? (fun r => decide (r.id = some i)) = some t)
    (hu : u.id = some i) :
    (rows.map (fun r => if r.id = some i then u else r)).find?
      (fun r => decide (r.id = some i)) = some u := by
  induction rows with
  | nil => simp at hfind
  | cons a as ih =>
    by_cases h : a.id = some i
    · simp only [List.map_cons, if_pos h]
      exact List.find?_cons_of_pos _ (by simp [hu])
    · rw [List.find?_cons_of_neg _ (by simp [h])] at hfind
      simp only [List.map_cons, if_neg h]
      rw [List.find?_cons_of_neg _ (by simp [h])]
      exact ih hfind

theorem map_update_no_match (rows : List PyTodo) (i : Nat) (u : PyTodo)
    (h : ∀ r ∈ rows, r.id ≠ some i) :
    rows.map (fun r => if r.id = some i then u else r) = rows := by
  induction rows with
  | nil => rfl
  | cons a as ih =>
    simp only [List.map_cons, if_neg (h a (List.mem_cons_self a as))]
    rw [ih (fun r hr => h r (List.mem_cons_of_mem a hr))]

theorem map_update_self (rows : List PyTodo) (i : Nat) (t : PyTodo)
    (hfind : rows.find? (fun r => decide (r.id = some i)) = some t)
    (hdist : rows.Pairwise (fun a b => a.id ≠ b.id)) :
    rows.map (fun r => if r.id = some i then t else r) = rows := by
  induction rows with
  | nil => rfl
  | cons a as ih =>
    rcases List.pairwise_cons.mp hdist with ⟨ha, has⟩
    by_cases h : a.id = some i
    · have ht : t = a := by
        rw [List.find?_cons_of_pos _ (by simp [h])] at hfind
        exact (Option.some.inj hfind).symm
      subst ht
      simp only [List.map_cons, if_pos h]
      rw [map_update_no_match as i t
        (fun r hr hc => (ha r hr) (h.trans hc.symm))]
    · rw [List.find?_cons_of_neg _ (by simp [h])] at hfind
      simp only [List.map_cons, if_neg h]
      rw [ih hfind has]

theorem find?_filter_none (rows : List PyTodo) (i : Nat) :
    (rows.filter (fun r => !decide (r.id = some i))).find?
      (fun r => decide (r.id = some i)) = none := by
  induction rows with
  | nil => rfl
  | cons a as ih =>
    by_cases h : a.id = some i <;> simp [List.filter_cons, h, ih]

theorem update_missing_404 (store : StoreMode) (db : DB) (i : Nat) (body : JsonObj)
    (h : dbGet db i = none) :
    update_todo_flask store db i body = (detailResp 404 "To-Do item not found", db) := by
  simp only [update_todo_flask, h]

theorem delete_missing_404 (store : StoreMode) (db : DB) (i : Nat)
    (h : dbGet db i = none) :
    delete_todo_flask store db i = (detailResp 404 "To-Do item not found", db) := by
  simp only [delete_todo_flask, h]

/-! ## The claims -/

/-- Claim C1: a PUT whose body contains only the `completed` field returns
200 with the new `completed` value while `id`, `title`, `description`,
`priority` and `due_date` keep their prior values, and persists exactly that
row. -/
theorem c1_update_only_completed (db : DB) (i : Nat) (b : Bool) (t : PyTodo)
    (hget : dbGet db i = some t)
    (hok : rowConstraintsOk t = true) :
    (update_todo_flask .ok db i [("completed", JsonVal.bool b)]).1 =
      ⟨200, .obj (PyTodo.dump { t with completed := some b })⟩ ∧
    dbGet (update_todo_flask .ok db i [("completed", JsonVal.bool b)]).2 i =
      some { t with completed := some b } ∧
    (update_todo_flask .ok db i [("completed", JsonVal.bool b)]).2.nextId = db.nextId := by
  have hid : t.id = some i := by
    have := List.find?_some hget
    simpa using this
  have hval : TodoItemUpdate.validate [("completed", JsonVal.bool b)] =
      .ok ⟨none, none, some (some b), none, none⟩ := rfl
  have happ : applyUpdate t ⟨none, none, some (some b), none, none⟩ =
      { t with completed := some b } := rfl
  have hc := rowConstraintsOk_set_completed t b hok
  simp only [update_todo_flask, hget, hval, happ, hc, if_true]
  refine ⟨trivial, ?_, trivial⟩
  exact find?_map_update db.rows i t _ hget hid

theorem c1_witness :
    (update_todo_flask .ok ⟨[⟨some 1, some "a", none, some false, none, none⟩], 2⟩ 1
        [("completed", JsonVal.bool true)]).1 =
      ⟨200, .obj (PyTodo.dump ⟨some 1, some "a", none, some true, none, none⟩)⟩ :=
  (c1_update_only_completed ⟨[⟨some 1, some "a", none, some false, none, none⟩], 2⟩ 1 true
    ⟨some 1, some "a", none, some false, none, none⟩ rfl rfl).1

/-- Claim C2: a PUT with an empty partial body returns 200 with the item
unchanged and leaves the stored table identical. -/
theorem c2_update_empty_body (db : DB) (i : Nat) (t : PyTodo)
    (hget : dbGet db i = some t)
    (hok : rowConstraintsOk t = true)
    (hdist : db.rows.Pairwise (fun a b => a.id ≠ b.id)) :
    update_todo_flask .ok db i [] = (⟨200, .obj t.dump⟩, db) := by
  have hval : TodoItemUpdate.validate [] = .ok ⟨none, none, none, none, none⟩ := rfl
  have happ : applyUpdate t ⟨none, none, none, none, none⟩ = t := rfl
  simp only [update_todo_flask, hget, hval, happ, hok, if_true]
  rw [map_update_self db.rows i t hget hdist]

theorem c2_witness :
    update_todo_flask .ok ⟨[⟨some 1, some "a", none, some false, none, none⟩], 2⟩ 1 [] =
      (⟨200, .obj (PyTodo.dump ⟨some 1, some "a", none, some false, none, none⟩)⟩,
       ⟨[⟨some 1, some "a", none, some false, none, none⟩], 2⟩) :=
  c2_update_empty_body ⟨[⟨some 1, some "a", none, some false, none, none⟩], 2⟩ 1
    ⟨some 1, some "a", none, some false, none, none⟩ rfl rfl (by simp)

/-- Claim C3: a POST whose body sets only `title` returns 201 with a row
whose `completed` is false, whose `description`, `priority` and `due_date`
are null, and whose `id` is assigned by the store. -/
theorem c3_create_title_only (db : DB) (s : String) :
    create_todo_flask .ok db [("title", JsonVal.str s)] =
      (⟨201, .obj (PyTodo.dump ⟨some db.nextId, some s, none, some false, none, none⟩)⟩,
       ⟨db.rows ++ [⟨some db.nextId, some s, none, some false, none, none⟩],
        db.nextId + 1⟩) := rfl

/-- Claim C4, counterexample: a create request whose `title` is the empty
string is accepted — it returns 201 and stores a row with the empty title,
so boundary validation does not enforce non-emptiness. -/
theorem c4_empty_title_accepted :
    (create_todo_flask .ok ⟨[], 1⟩ [("title", JsonVal.str "")]).1.status = 201 ∧
    (create_todo_flask .ok ⟨[], 1⟩ [("title", JsonVal.str "")]).2.rows =
      [⟨some 1, some "", none, some false, none, none⟩] := ⟨rfl, rfl⟩

/-- Claim C4, amended: boundary validation only requires `title` to be
present and a string — a create request whose `title` is absent or not a
string is rejected with 400 and creates no row; the empty string passes. -/
theorem c4_title_required (store : StoreMode) (db : DB) (body : JsonObj)
    (h : ∀ s, getField body "title" ≠ some (JsonVal.str s)) :
    (create_todo_flask store db body).1.status = 400 ∧
    (create_todo_flask store db body).2 = db := by
  cases hv : getField body "title" with
  | none => simp [create_todo_flask, TodoItemCreate.validate, hv, detailResp]
  | some v =>
    cases v with
    | str s => exact absurd hv (h s)
    | null => simp [create_todo_flask, TodoItemCreate.validate, hv, detailResp]
    | bool b => simp [create_todo_flask, TodoItemCreate.validate, hv, detailResp]
    | num n => simp [create_todo_flask, TodoItemCreate.validate, hv, detailResp]

theorem c4_witness :
    (create_todo_flask .ok ⟨[], 1⟩ []).1.status = 400 ∧
    (create_todo_flask .ok ⟨[], 1⟩ []).2 = ⟨[], 1⟩ :=
  c4_title_required .ok ⟨[], 1⟩ [] (fun _ h => by simp [getField] at h)

/-- Claim C5: if every stored row's `priority` is null or at most 50
characters, the same holds of every row after a create and after an update:
a longer `priority` never reaches the store, whose VARCHAR(50) column
rejects the write. -/
theorem c5_priority_invariant (db : DB) (bodyC bodyU : JsonObj) (i : Nat)
    (h : ∀ r ∈ db.rows, priorityOk r = true) :
    (∀ r ∈ (create_todo_flask .ok db bodyC).2.rows, priorityOk r = true) ∧
    (∀ r ∈ (update_todo_flask .ok db i bodyU).2.rows, priorityOk r = true) := by
  constructor
  · intro r hr
    simp only [create_todo_flask] at hr
    split at hr
    · exact h r hr
    · split at hr
      · rename_i tc _ hcon
        rcases List.mem_append.mp hr with h1 | h2
        · exact h r h1
        · rcases List.mem_singleton.mp h2 with rfl
          simp only [rowConstraintsOk, Bool.and_eq_true] at hcon
          exact hcon.2
      · exact h r hr
  · intro r hr
    simp only [update_todo_flask] at hr
    split at hr
    · exact h r hr
    · split at hr
      · exact h r hr
      · split at hr
        · rename_i todo _ u _ hcon
          rcases List.mem_map.mp hr with ⟨a, ha, hfa⟩
          by_cases hai : a.id = some i
          · rw [if_pos hai] at hfa
            subst hfa
            simp only [rowConstraintsOk, Bool.and_eq_true] at hcon
            exact hcon.2
          · rw [if_neg hai] at hfa
            subst hfa
            exact h a ha
        · exact h r hr

theorem c5_witness :
    priorityOk ⟨some 1, some "x", none, some false, none, none⟩ = true :=
  (c5_priority_invariant ⟨[], 1⟩ [("title", JsonVal.str "x")] [] 1
    (fun r hr => absurd hr (List.not_mem_nil r))).1
    ⟨some 1, some "x", none, some false, none, none⟩ (by decide)

/-- Claim C6, counterexample: when the store fails during the write of a
create, the handler returns 400, not 500 — its single `except` maps every
failure to 400. -/
theorem c6_create_store_failure_400 :
    (create_todo_flask .failWrite ⟨[], 1⟩ [("title", JsonVal.str "a")]).1 =
      detailResp 400 "Failed to create todo: store write failure" := rfl

/-- Claim C6, amended: a store failure during the write makes update and
delete return 500 with a `detail` body and leaves the store unchanged, while
create returns 400 with a `detail` body (its handler catches every failure
as 400). -/
theorem c6_write_failure_statuses (db : DB) (i : Nat) (bodyU bodyC : JsonObj)
    (t : PyTodo) (u : TodoItemUpdate) (c : TodoItemCreate)
    (hget : dbGet db i = some t)
    (hu : TodoItemUpdate.validate bodyU = .ok u)
    (hc : TodoItemCreate.validate bodyC = .ok c) :
    (update_todo_flask .failWrite db i bodyU).1 =
      detailResp 500 ("Failed to update todo: " ++ "store write failure") ∧
    (delete_todo_flask .failWrite db i).1 =
      detailResp 500 ("Failed to delete todo: " ++ "store write failure") ∧
    (create_todo_flask .failWrite db bodyC).1 =
      detailResp 400 ("Failed to create todo: " ++ "store write failure") ∧
    (update_todo_flask .failWrite db i bodyU).2 = db ∧
    (delete_todo_flask .failWrite db i).2 = db ∧
    (create_todo_flask .failWrite db bodyC).2 = db := by
  simp only [update_todo_flask, delete_todo_flask, create_todo_flask, hget, hu, hc]
  refine ⟨?_, ?_, ?_, ?_, ?_, ?_⟩ <;> trivial

theorem c6_witness :
    (update_todo_flask .failWrite ⟨[⟨some 1, some "a", none, some false, none, none⟩], 2⟩ 1
        []).1 =
      detailResp 500 ("Failed to update todo: " ++ "store write failure") ∧
    (delete_todo_flask .failWrite ⟨[⟨some 1, some "a", none, some false, none, none⟩], 2⟩
        1).1 =
      detailResp 500 ("Failed to delete todo: " ++ "store write failure") := by
  have h := c6_write_failure_statuses
    ⟨[⟨some 1, some "a", none, some false, none, none⟩], 2⟩ 1 [] [("title", JsonVal.str "a")]
    ⟨some 1, some "a", none, some false, none, none⟩
    ⟨none, none, none, none, none⟩ ⟨"a", none, none, none⟩ rfl rfl rfl
  exact ⟨h.1, h.2.1⟩

/-- Claim C8: deleting a nonexistent id returns 404 with a `detail` body and
changes nothing; deleting an existing id returns 204 with an empty body and
removes the row, so that a subsequent update or delete addressing that id
returns 404. -/
theorem c8_delete_semantics (db : DB) (i : Nat) :
    (dbGet db i = none →
      delete_todo_flask .ok db i = (detailResp 404 "To-Do item not found", db)) ∧
    (∀ t, dbGet db i = some t →
      (delete_todo_flask .ok db i).1 = ⟨204, .text ""⟩ ∧
      dbGet (delete_todo_flask .ok db i).2 i = none ∧
      (∀ body, (update_todo_flask .ok (delete_todo_flask .ok db i).2 i body).1 =
        detailResp 404 "To-Do item not found") ∧
      (delete_todo_flask .ok (delete_todo_flask .ok db i).2 i).1 =
        detailResp 404 "To-Do item not found") := by
  constructor
  · exact delete_missing_404 .ok db i
  · intro t hget
    have hnone : dbGet (delete_todo_flask .ok db i).2 i = none := by
      simp only [delete_todo_flask, hget]
      exact find?_filter_none db.rows i
    refine ⟨by simp only [delete_todo_flask, hget], hnone, ?_, ?_⟩
    · intro body
      rw [update_missing_404 .ok _ i body hnone]
    · rw [delete_missing_404 .ok _ i hnone]

theorem c8_witness :
    (delete_todo_flask .ok ⟨[⟨some 1, some "a", none, some false, none, none⟩], 2⟩ 1).1 =
      ⟨204, .text ""⟩ ∧
    dbGet (delete_todo_flask .ok
      ⟨[⟨some 1, some "a", none, some false, none, none⟩], 2⟩ 1).2 1 = none := by
  have h := (c8_delete_semantics ⟨[⟨some 1, some "a", none, some false, none, none⟩], 2⟩ 1).2
    ⟨some 1, some "a", none, some false, none, none⟩ rfl
  exact ⟨h.1, h.2.1⟩

/-- Claim C9: with the backend credential absent at startup, the configured
model is `None` and every translate request returns 503 with a `detail` body
without the external backend ever being called. -/
theorem c9_translate_no_credential (backend : String → Except String String) (body : JsonObj) :
    translate_text_flask (gemini_model none) backend body =
      ⟨detailResp 503 "Translation service not available. API key might be missing or invalid.",
       false⟩ := rfl

/-- Claim C10: a PUT addressed to an id with no stored row returns 404 with
a `detail` body whatever the request body holds — the existence check runs
before body validation — and leaves the store unchanged. -/
theorem c10_update_unknown_id (store : StoreMode) (db : DB) (i : Nat) (body : JsonObj)
    (h : dbGet db i = none) :
    update_todo_flask store db i body = (detailResp 404 "To-Do item not found", db) := by
  simp only [update_todo_flask, h]

theorem c10_witness :
    update_todo_flask .ok ⟨[], 5⟩ 3 [("completed", JsonVal.str "banana")] =
      (detailResp 404 "To-Do item not found", ⟨[], 5⟩) :=
  c10_update_unknown_id .ok ⟨[], 5⟩ 3 [("completed", JsonVal.str "banana")] rfl
